import Mathlib

/-!
Verification development for the sandboxed patch-validation runner.

The definitions below are a shallow embedding of the Python sources
runner/execution_models.py, runner/runner_execution.py and
runner/runner_service.py.  External effects (subprocesses, the container
runtime, the network, the clock, the LLM gateway) are abstracted into
explicit environment records whose fields give the outcome of each
external call; everything else follows the control flow of the source
line by line.  Machine floats of the source are modelled by rationals.
-/

/-! ## execution_models.py -/

/-- `ExecutionStrategy` enum: values none, script, service, test, daemon. -/
inductive ExecutionStrategy
  | none
  | script
  | service
  | test
  | daemon
deriving DecidableEq, Repr

/-- String value carried by each `ExecutionStrategy` member (the enum values). -/
def strategyValue : ExecutionStrategy → String
  | ExecutionStrategy.none => "none"
  | ExecutionStrategy.script => "script"
  | ExecutionStrategy.service => "service"
  | ExecutionStrategy.test => "test"
  | ExecutionStrategy.daemon => "daemon"

/-- `HealthCheckConfig` pydantic model. -/
structure HealthCheckConfig where
  type : String := "http"
  url : Option String := Option.none
  host : Option String := Option.none
  port : Option Int := Option.none
  command : Option String := Option.none
  expected_status : Option Int := some 200
  expected_body_contains : Option (List String) := Option.none
  timeout : Int := 10
deriving DecidableEq, Repr

/-- `SuccessCriteria` pydantic model; every field defaults to `None`. -/
structure SuccessCriteria where
  exit_code : Option Int := Option.none
  exit_code_not : Option (List Int) := Option.none
  stdout_contains : Option (List String) := Option.none
  stdout_not_contains : Option (List String) := Option.none
  stderr_empty : Option Bool := Option.none
  stderr_contains : Option (List String) := Option.none
  runs_for_at_least : Option ℚ := Option.none
  health_check_passes : Option Bool := Option.none
  test_pass_rate : Option ℚ := Option.none
deriving DecidableEq, Repr

/-- `ExecutionConfig` pydantic model. -/
structure ExecutionConfig where
  enabled : Bool := false
  strategy : ExecutionStrategy := ExecutionStrategy.none
  command : Option String := Option.none
  args : Option (List String) := Option.none
  env : Option (List (String × String)) := Option.none
  working_dir : Option String := Option.none
  timeout : Int := 30
  expect_exit : Bool := true
  startup_wait : Option Int := Option.none
  health_check : Option HealthCheckConfig := Option.none
  shutdown_command : Option String := Option.none
  shutdown_timeout : Int := 10
  test_command : Option String := Option.none
  test_framework : Option String := Option.none
  test_timeout : Int := 300
  success_if : Option SuccessCriteria := Option.none
  description : Option String := Option.none
  tags : Option (List String) := Option.none
deriving DecidableEq, Repr

/-- `ExecutionResult` pydantic model; `strategy` and `success` are required,
every other field defaults to `None`. -/
structure ExecutionResult where
  strategy : ExecutionStrategy
  success : Bool
  exit_code : Option Int := Option.none
  stdout : Option String := Option.none
  stderr : Option String := Option.none
  runtime_seconds : Option ℚ := Option.none
  service_started : Option Bool := Option.none
  health_check_passed : Option Bool := Option.none
  health_check_response : Option String := Option.none
  tests_run : Option Int := Option.none
  tests_passed : Option Int := Option.none
  tests_failed : Option Int := Option.none
  test_output : Option String := Option.none
  error : Option String := Option.none
  error_details : Option String := Option.none
  criteria_met : Option (List (String × Bool)) := Option.none
deriving DecidableEq, Repr

/-! ## runner_execution.py — success-criteria evaluation

The `results` dict of `_evaluate_criteria` is modelled as an association
list with Python-dict insertion semantics: inserting an existing key
replaces its value in place, a new key is appended. -/

/-- Python-dict style insert into an association list. -/
def dictInsert (l : List (String × Bool)) (k : String) (v : Bool) :
    List (String × Bool) :=
  if l.any (fun p => p.1 == k) then
    l.map (fun p => if p.1 == k then (k, v) else p)
  else
    l ++ [(k, v)]

/-- Boolean infix test on lists, used for substring search. -/
def listIsInfix (needle : List Char) : List Char → Bool
  | [] => needle.isEmpty
  | c :: cs => needle.isPrefixOf (c :: cs) || listIsInfix needle cs

/-- Python `needle in hay` substring test. -/
def strContains (hay needle : String) : Bool :=
  listIsInfix needle.data hay.data

/-- Python `str.strip()`: drop leading and trailing whitespace. -/
def pyStrip (s : String) : String :=
  String.mk
    (((s.data.dropWhile Char.isWhitespace).reverse.dropWhile Char.isWhitespace).reverse)

/-- Python `not stderr or len(stderr.strip()) == 0`. -/
def stderrIsEmpty (s : String) : Bool :=
  (s == "") || (pyStrip s == "")

/-- `ExecutionEngine._evaluate_criteria`.  `criteria = Option.none` models the
Python branch `if not criteria:` (pydantic model instances are always truthy,
so that branch fires exactly when `criteria is None`).  Guards written with
`is not None` in the source are modelled by a match on the option; guards
written by truthiness on list fields additionally skip the empty list. -/
def evaluate_criteria (criteria : Option SuccessCriteria) (exit_code : Int)
    (stdout stderr : String) (runtime : ℚ) : Bool × List (String × Bool) :=
  match criteria with
  | Option.none => ((exit_code == 0), [("exit_code_0", exit_code == 0)])
  | some c =>
    let results : List (String × Bool) := []
    let results := match c.exit_code with
      | some e => dictInsert results "exit_code_match" (exit_code == e)
      | Option.none => results
    let results := match c.exit_code_not with
      | some l =>
          if l.isEmpty then results
          else dictInsert results "exit_code_allowed" (! l.contains exit_code)
      | Option.none => results
    let results := match c.stdout_contains with
      | some ps =>
          if ps.isEmpty then results
          else ps.foldl
            (fun acc p =>
              dictInsert acc ("stdout_contains_" ++ p.take 20) (strContains stdout p))
            results
      | Option.none => results
    let results := match c.stdout_not_contains with
      | some ps =>
          if ps.isEmpty then results
          else ps.foldl
            (fun acc p =>
              dictInsert acc ("stdout_not_contains_" ++ p.take 20)
                (! strContains stdout p))
            results
      | Option.none => results
    let results := match c.stderr_empty with
      | some _ => dictInsert results "stderr_empty" (stderrIsEmpty stderr)
      | Option.none => results
    let results := match c.stderr_contains with
      | some ps =>
          if ps.isEmpty then results
          else ps.foldl
            (fun acc p =>
              dictInsert acc ("stderr_contains_" ++ p.take 20) (strContains stderr p))
            results
      | Option.none => results
    let results := match c.runs_for_at_least with
      | some r => dictInsert results "min_runtime" (decide (runtime ≥ r))
      | Option.none => results
    (results.all (fun p => p.2), results)

/-! ## runner_execution.py — test-output parsing

`re.search` with the patterns of `_parse_test_results` is replayed by a
left-to-right scan.  For a pattern of the shape digits-then-literal the
regex engine's digit backtracking can never succeed with fewer digits
than the maximal run (the following character would be a digit, not the
literal's first character), so maximal-munch at each position is exact. -/

/-- Split a list into its maximal leading digit run and the remainder. -/
def digitSpan : List Char → List Char × List Char
  | [] => ([], [])
  | c :: cs =>
    if c.isDigit then
      let p := digitSpan cs
      (c :: p.1, p.2)
    else ([], c :: cs)

/-- Decimal value of a digit list. -/
def natOfDigits (ds : List Char) : Nat :=
  ds.foldl (fun n c => n * 10 + (c.toNat - '0'.toNat)) 0

/-- Leftmost match of the pattern digits-then-`lit`: returns the number and
the remainder of the input after the literal. -/
def findNumLit (lit : List Char) : List Char → Option (Nat × List Char)
  | [] => Option.none
  | c :: cs =>
    if c.isDigit then
      let p := digitSpan (c :: cs)
      if lit.isPrefixOf p.2 then some (natOfDigits p.1, p.2.drop lit.length)
      else findNumLit lit cs
    else findNumLit lit cs

/-- Leftmost number followed by `lit`, value only. -/
def findNumBefore (lit : List Char) (l : List Char) : Option Nat :=
  (findNumLit lit l).map (fun p => p.1)

/-- Replay of `re.search` for the jest pattern
digits-`" passed"`-then-digits-`" total"` after a literal `Tests:`, all on
one line (`.` does not cross newlines).  Returns (passed, total). -/
def jestScan : List Char → Option (Nat × Nat)
  | [] => Option.none
  | c :: cs =>
    if ("Tests:".data).isPrefixOf (c :: cs) then
      let lineRest := ((c :: cs).drop 6).takeWhile (fun ch => ch ≠ '\n')
      match findNumLit (" passed".data) lineRest with
      | some pr =>
        match findNumLit (" total".data) pr.2 with
        | some tr => some (pr.1, tr.1)
        | Option.none => jestScan cs
      | Option.none => jestScan cs
    else jestScan cs

/-- `ExecutionEngine._parse_test_results`: returns
(tests_run, tests_passed, tests_failed). -/
def parse_test_results (output : String) (framework : Option String) :
    Int × Int × Int :=
  if framework == some "pytest" then
    let p : Int := match findNumBefore (" passed".data) output.data with
      | some n => (n : Int)
      | Option.none => 0
    let f : Int := match findNumBefore (" failed".data) output.data with
      | some n => (n : Int)
      | Option.none => 0
    (p + f, p, f)
  else if framework == some "jest" then
    match jestScan output.data with
    | some pt => ((pt.2 : Int), (pt.1 : Int), (pt.2 : Int) - (pt.1 : Int))
    | Option.none => (0, 0, 0)
  else (0, 0, 0)

/-- Python `config.success_if.test_pass_rate or 1.0`: a missing rate or a
falsy (zero) rate both give the default threshold 1.0. -/
def passRateOr1 : Option ℚ → ℚ
  | some r => if r = 0 then 1 else r
  | Option.none => 1

/-- Overall success computed by `_execute_tests`:
exit code 0 and (no criteria, or zero failures, or pass rate at least the
configured threshold). -/
def test_overall_success (exit_code : Int) (crit : Option SuccessCriteria)
    (tests_run tests_passed tests_failed : Int) : Bool :=
  exit_code == 0 &&
    (match crit with
     | Option.none => true
     | some c =>
        tests_failed == 0 ||
          decide ((tests_passed : ℚ) / ((max tests_run 1 : Int) : ℚ)
            ≥ passRateOr1 c.test_pass_rate))

/-! ## runner_execution.py — ExecutionEngine

The container runtime, clock and network are abstracted into `EngineEnv`:
each field gives the outcome of one kind of external call.  An
`Except.error` value models a Python exception raised by that call. -/

/-- Outcome of a synchronous `container.exec_run` together with the measured
wall-clock runtime: (exit code, stdout, stderr, runtime seconds). -/
def ExecOutcome := Int × String × String × ℚ

/-- Environment of one `ExecutionEngine` invocation. -/
structure EngineEnv where
  scriptOutcome : Except String ExecOutcome := Except.ok (0, "", "", 0)
  testOutcome : Except String ExecOutcome := Except.ok (0, "", "", 0)
  serviceExc : Option String := Option.none
  healthOutcome : Bool × Option String := (false, Option.none)
  serviceRuntime : ℚ := 0
  daemonExc : Option String := Option.none
  daemonStillRunning : Bool := false
  daemonRuntime : ℚ := 0
  failRuntime : ℚ := 0

/-- `ExecutionEngine._build_command`: `cmd = config.command` then
`cmd += " " + " ".join(args)` when `args` is truthy.  When `command` is
`None` and `args` is truthy the `+=` raises a `TypeError` before the
strategy's own try block, modelled as `Except.error`. -/
def build_command (config : ExecutionConfig) : Except String (Option String) :=
  match config.command, config.args with
  | some c, some as =>
      if as.isEmpty then Except.ok (some c)
      else Except.ok (some (c ++ " " ++ String.intercalate " " as))
  | some c, Option.none => Except.ok (some c)
  | Option.none, some as =>
      if as.isEmpty then Except.ok Option.none
      else Except.error "unsupported operand types for += on NoneType and str"
  | Option.none, Option.none => Except.ok Option.none

/-- Command construction at the top of `_execute_tests`
(`cmd = config.test_command` then the same `+=` on truthy `args`). -/
def build_test_command (config : ExecutionConfig) : Except String (Option String) :=
  match config.test_command, config.args with
  | some c, some as =>
      if as.isEmpty then Except.ok (some c)
      else Except.ok (some (c ++ " " ++ String.intercalate " " as))
  | some c, Option.none => Except.ok (some c)
  | Option.none, some as =>
      if as.isEmpty then Except.ok Option.none
      else Except.error "unsupported operand types for += on NoneType and str"
  | Option.none, Option.none => Except.ok Option.none

/-- `ExecutionEngine._execute_script`.  The inner try/except converts an
`exec_run` exception into a failed result; an exception from
`_build_command` happens before that try and propagates. -/
def execute_script (env : EngineEnv) (config : ExecutionConfig) :
    Except String ExecutionResult := do
  let _cmd ← build_command config
  Except.ok <| match env.scriptOutcome with
    | Except.error e =>
        { strategy := ExecutionStrategy.script, success := false,
          error := some e, runtime_seconds := some env.failRuntime }
    | Except.ok o =>
        let exit_code := o.1
        let stdout := o.2.1
        let stderr := o.2.2.1
        let runtime := o.2.2.2
        let ev := evaluate_criteria config.success_if exit_code stdout stderr runtime
        { strategy := ExecutionStrategy.script, success := ev.1,
          exit_code := some exit_code,
          stdout := some (stdout.take 1000), stderr := some (stderr.take 1000),
          runtime_seconds := some runtime, criteria_met := some ev.2 }

/-- `ExecutionEngine._execute_service`.  `serviceExc` models any exception
inside the try block (detached start, sleep, shutdown command); the health
check itself never raises (`_health_check` catches its own errors), its
result is the oracle `healthOutcome`. -/
def execute_service (env : EngineEnv) (config : ExecutionConfig) :
    Except String ExecutionResult := do
  let _cmd ← build_command config
  Except.ok <| match env.serviceExc with
    | some e =>
        { strategy := ExecutionStrategy.service, success := false,
          service_started := some false, error := some e,
          runtime_seconds := some env.failRuntime }
    | Option.none =>
        let hp := if config.health_check.isSome then env.healthOutcome.1 else false
        let hr := if config.health_check.isSome then env.healthOutcome.2 else Option.none
        let succ := if config.health_check.isSome then hp else true
        { strategy := ExecutionStrategy.service, success := succ,
          service_started := some true, health_check_passed := some hp,
          health_check_response := hr, runtime_seconds := some env.serviceRuntime }

/-- `ExecutionEngine._execute_tests`. -/
def execute_tests (env : EngineEnv) (config : ExecutionConfig) :
    Except String ExecutionResult := do
  let _cmd ← build_test_command config
  Except.ok <| match env.testOutcome with
    | Except.error e =>
        { strategy := ExecutionStrategy.test, success := false,
          error := some e, runtime_seconds := some env.failRuntime }
    | Except.ok o =>
        let exit_code := o.1
        let stdout := o.2.1
        let runtime := o.2.2.2
        let counts := parse_test_results stdout config.test_framework
        let succ := test_overall_success exit_code config.success_if
          counts.1 counts.2.1 counts.2.2
        { strategy := ExecutionStrategy.test, success := succ,
          exit_code := some exit_code,
          tests_run := some counts.1, tests_passed := some counts.2.1,
          tests_failed := some counts.2.2,
          test_output := some (stdout.take 2000), runtime_seconds := some runtime }

/-- `ExecutionEngine._execute_daemon`: success is whether the detached
process is still running after the minimum-runtime sleep. -/
def execute_daemon (env : EngineEnv) (config : ExecutionConfig) :
    Except String ExecutionResult := do
  let _cmd ← build_command config
  Except.ok <| match env.daemonExc with
    | some e =>
        { strategy := ExecutionStrategy.daemon, success := false,
          error := some e, runtime_seconds := some env.failRuntime }
    | Option.none =>
        { strategy := ExecutionStrategy.daemon, success := env.daemonStillRunning,
          runtime_seconds := some env.daemonRuntime }

/-- The strategy dispatch inside the try block of `ExecutionEngine.execute`;
an unrecognised strategy raises `ValueError`. -/
def executeE (env : EngineEnv) (config : ExecutionConfig) :
    Except String ExecutionResult :=
  match config.strategy with
  | ExecutionStrategy.script => execute_script env config
  | ExecutionStrategy.service => execute_service env config
  | ExecutionStrategy.test => execute_tests env config
  | ExecutionStrategy.daemon => execute_daemon env config
  | ExecutionStrategy.none =>
      Except.error ("Unknown strategy: " ++ strategyValue config.strategy)

/-- `ExecutionEngine.execute`: disabled configs short-circuit to a successful
none-strategy result; any exception from the dispatch is caught and turned
into a failed `ExecutionResult` carrying the message. -/
def executeEngine (env : EngineEnv) (config : ExecutionConfig) : ExecutionResult :=
  if config.enabled then
    match executeE env config with
    | Except.ok r => r
    | Except.error e =>
        { strategy := config.strategy, success := false, error := some e }
  else { strategy := ExecutionStrategy.none, success := true }

/-! ## runner_service.py — static checks

`check_syntax` and `check_build` run a per-language command in the sandbox
and inspect its exit code and captured output; the command execution is
abstracted into the exit code and output passed in. -/

/-- Result dict of a static check: keys passed, type, message, exit_code. -/
structure CheckResult where
  passed : Bool
  ctype : Option String := Option.none
  message : String
  exit_code : Int
deriving DecidableEq, Repr

/-- `check_syntax`: passed iff the syntax command exited 0; a failure is
tagged SyntaxError and keeps the full output as message. -/
def checkSyntax (language : String) (exit_code : Int) (output : String) :
    CheckResult :=
  { passed := exit_code == 0,
    ctype := if exit_code == 0 then Option.none else some "SyntaxError",
    message := output,
    exit_code := exit_code }

/-- `check_build`: the result dict is built with passed hard-wired to True
(the source comment reads: for MVP, do not fail on build issues), whatever
the language and whatever the exit code of the build command. -/
def checkBuild (language : String) (exit_code : Int) (output : String) :
    CheckResult :=
  { passed := true,
    message := output,
    exit_code := exit_code }

/-- External outcomes consumed by one `validate_in_sandbox` call.  An
`Option.some` in an `Exc` field models `container.exec_run` raising. -/
structure SandboxCheckEnv where
  syntaxExc : Option String := Option.none
  syntaxExit : Int := 0
  syntaxOut : String := ""
  buildExc : Option String := Option.none
  buildExit : Int := 0
  buildOut : String := ""

/-- Return value of `validate_in_sandbox`. -/
structure ValidationOutcome where
  success : Bool
  step : Option String := Option.none
  errorMessage : Option String := Option.none
deriving DecidableEq, Repr

/-- `validate_in_sandbox`: syntax check first, then build check; an
exception anywhere in the try block yields a failed outcome with step
validation. -/
def validate_in_sandbox (language : String) (env : SandboxCheckEnv) :
    ValidationOutcome :=
  match env.syntaxExc with
  | some e => { success := false, step := some "validation", errorMessage := some e }
  | Option.none =>
    let sr := checkSyntax language env.syntaxExit env.syntaxOut
    if !sr.passed then
      { success := false, step := some "syntax", errorMessage := some sr.message }
    else
      match env.buildExc with
      | some e => { success := false, step := some "validation", errorMessage := some e }
      | Option.none =>
        let br := checkBuild language env.buildExit env.buildOut
        if !br.passed then
          { success := false, step := some "build", errorMessage := some br.message }
        else { success := true }

/-! ## runner_service.py — apply_patch

The repository working tree is an abstract type `T`; the outcomes of the
two subprocesses are supplied as functions: `checkRun` is the dry run
(`git apply --check`, exit 0 = success, never mutates the tree) and
`applyRun` is the real `git apply` (`Option.none` = non-zero exit).  The
temporary patch file written into the repository is tracked separately
from the tree.  The returned Bool records whether the real apply
subprocess was invoked at all. -/

/-- A repository directory: working tree plus the optional temp.patch file. -/
structure RepoState (T : Type) where
  tree : T
  tempPatchFile : Option String
deriving DecidableEq, Repr

/-- `apply_patch`: write the patch to temp.patch, dry-run check, real apply
only if the check passed; the finally block removes temp.patch on every
exit path.  Returns (raised-or-ok, final repository state, whether the
real apply ran). -/
def apply_patch {T : Type} (checkRun : T → String → Bool)
    (applyRun : T → String → Option T) (repo : RepoState T) (patch : String) :
    Except String Unit × RepoState T × Bool :=
  let written : RepoState T := { repo with tempPatchFile := some patch }
  if checkRun written.tree patch then
    match applyRun written.tree patch with
    | some t =>
        (Except.ok (), { tree := t, tempPatchFile := Option.none }, true)
    | Option.none =>
        (Except.error "Patch apply failed",
         { written with tempPatchFile := Option.none }, true)
  else
    (Except.error "Patch does not apply",
     { written with tempPatchFile := Option.none }, false)

/-! ## runner_service.py — validation orchestrator

`execute_validation` drives one run: workspace, clone, optional checkout,
initial patch, sandbox, the bounded attempt loop with the LLM fixer, the
optional dynamic execution, commit/push, then the finally block.  External
outcomes are supplied by `OrchestratorEnv`; a `false` in one of the early
Ok fields means the corresponding call raised.  `MAX_ATTEMPTS` is the
parameter `m` (the configured maximum, 3 by default). -/

/-- Run status values. -/
inductive Status
  | pending
  | running
  | completed
  | failed
  | error
deriving DecidableEq, Repr

/-- The three terminal status values. -/
def Status.isTerminal : Status → Bool
  | Status.completed => true
  | Status.failed => true
  | Status.error => true
  | _ => false

/-- The fields of `ValidationRun` the claims are about.  The two cleanup
flags record that `cleanup_sandbox` / `cleanup_workspace` were invoked in
the finally block; `completedAtSet` records that the completion timestamp
was stamped. -/
structure RunState where
  status : Status
  attempts : Nat
  errors : List String
  workspace : Option String
  sandbox : Option String
  completedAtSet : Bool
  sandboxCleaned : Bool
  workspaceCleaned : Bool
deriving DecidableEq, Repr

/-- `ValidationRun.__init__`. -/
def initRun : RunState :=
  { status := Status.pending, attempts := 0, errors := [],
    workspace := Option.none, sandbox := Option.none,
    completedAtSet := false, sandboxCleaned := false, workspaceCleaned := false }

/-- Outcomes of all external calls made by one `execute_validation` run.
Per-attempt outcomes are indexed by the zero-based attempt number. -/
structure OrchestratorEnv where
  branch : String := "main"
  workspaceOk : Bool := true
  cloneOk : Bool := true
  checkoutOk : Bool := true
  patchOk : Bool := true
  sandboxOk : Bool := true
  staticOk : Nat → Bool := fun _ => true
  staticErr : Nat → String := fun _ => "static check failed"
  fixerOk : Nat → Bool := fun _ => true
  retryPatchOk : Nat → Bool := fun _ => true
  execEnabled : Bool := false
  execOutcome : Except String Bool := Except.ok true
  commitRaises : Bool := false
  pushRaises : Bool := false
  sandboxCleanupOk : Bool := true
  workspaceCleanupOk : Bool := true

/-- Python truthiness test `run.request.branch and run.request.branch != "main"`
guarding the checkout phase. -/
def needsCheckout (branch : String) : Bool :=
  !(branch == "") && !(branch == "main")

/-- Result of the attempt loop: overall success, value of `run.attempts`,
accumulated `run.errors`, and the message of an exception raised while
re-applying a corrected patch (propagates to the outer handler). -/
structure LoopResult where
  success : Bool
  attempts : Nat
  errors : List String
  raised : Option String
deriving DecidableEq, Repr

/-- The `for attempt in range(MAX_ATTEMPTS)` loop of `execute_validation`:
run static validation; on success break; on failure record the error, stop
on the last attempt, stop when the fixer fails, otherwise reset and apply
the corrected patch (which may raise) and continue.  `attempt` is the
zero-based counter, `remaining` the iterations left. -/
def validationLoop (staticOk fixerOk retryPatchOk : Nat → Bool)
    (staticErr : Nat → String) (attempt remaining : Nat) (errs : List String) :
    LoopResult :=
  match remaining with
  | 0 => { success := false, attempts := attempt, errors := errs, raised := Option.none }
  | n + 1 =>
    if staticOk attempt then
      { success := true, attempts := attempt + 1, errors := errs, raised := Option.none }
    else
      let errs := errs ++ [staticErr attempt]
      if n = 0 then
        { success := false, attempts := attempt + 1, errors := errs, raised := Option.none }
      else if !fixerOk attempt then
        { success := false, attempts := attempt + 1, errors := errs, raised := Option.none }
      else if !retryPatchOk attempt then
        { success := false, attempts := attempt + 1, errors := errs,
          raised := some "Patch does not apply" }
      else
        validationLoop staticOk fixerOk retryPatchOk staticErr (attempt + 1) n errs

/-- The success flag after the optional dynamic-execution phase of step 6:
when the loop succeeded and execution is enabled, it is the engine
result's success, with an exception escaping the step-6 try caught into
false; otherwise it is the loop's success unchanged. -/
def postExecSuccess (env : OrchestratorEnv) (lr : LoopResult) : Bool :=
  if lr.success && env.execEnabled then
    match env.execOutcome with
    | Except.ok b => b
    | Except.error _ => false
  else lr.success

/-- Steps 6 and 7 of `execute_validation` after the attempt loop: a raised
corrected-patch exception reaches the outer handler (status error);
otherwise the optional dynamic execution may flip success to false (its
own exceptions are caught there), then commit and push (which may raise)
decide completed, failed or error. -/
def afterLoop (env : OrchestratorEnv) (s : RunState) (lr : LoopResult) : RunState :=
  match lr.raised with
  | some _ =>
      { s with status := Status.error, attempts := lr.attempts, errors := lr.errors }
  | Option.none =>
    if postExecSuccess env lr then
      if env.commitRaises then
        { s with status := Status.error, attempts := lr.attempts, errors := lr.errors }
      else if env.pushRaises then
        { s with status := Status.error, attempts := lr.attempts, errors := lr.errors }
      else
        { s with status := Status.completed, attempts := lr.attempts,
                 errors := lr.errors }
    else
      { s with status := Status.failed, attempts := lr.attempts, errors := lr.errors }

/-- Run state after an exception raised before `run.workspace` was set. -/
def preWorkspaceErrorState : RunState :=
  { initRun with status := Status.error }

/-- Run state right after the workspace phase. -/
def postWorkspaceState : RunState :=
  { initRun with status := Status.running, workspace := some "workspace-dir" }

/-- Run state of an early failure once the workspace was set. -/
def earlyErrorState : RunState :=
  { postWorkspaceState with status := Status.error }

/-- Run state at entry of the attempt loop: running, workspace and sandbox
recorded. -/
def loopEntryState : RunState :=
  { postWorkspaceState with sandbox := some "sandbox-id" }

/-- The try block of `execute_validation`: any exception in the early
phases is caught by the outer handler (status error); a checkout failure
is a distinguished early return that also sets status error.  Note that a
workspace-creation exception happens before `run.workspace` is assigned. -/
def runTry (m : Nat) (env : OrchestratorEnv) : RunState :=
  if !env.workspaceOk then preWorkspaceErrorState
  else if !env.cloneOk then earlyErrorState
  else if needsCheckout env.branch && !env.checkoutOk then earlyErrorState
  else if !env.patchOk then earlyErrorState
  else if !env.sandboxOk then earlyErrorState
  else
    afterLoop env loopEntryState
      (validationLoop env.staticOk env.fixerOk env.retryPatchOk env.staticErr 0 m [])

/-- The finally block of `execute_validation`: stamp the completion time,
tear down the sandbox when one was recorded, tear down the workspace when
one was recorded.  `cleanup_sandbox` and `cleanup_workspace` swallow their
own failures, so the success of either teardown (the two CleanupOk
environment fields) influences nothing here. -/
def runFinally (s : RunState) : RunState :=
  { s with completedAtSet := true,
           sandboxCleaned := s.sandbox.isSome,
           workspaceCleaned := s.workspace.isSome }

/-- `execute_validation`: the try block, then the finally block on every
exit path. -/
def execute_validation (m : Nat) (env : OrchestratorEnv) : RunState :=
  runFinally (runTry m env)

/-- Success of the five phases preceding the attempt loop. -/
def earlyOk (env : OrchestratorEnv) : Prop :=
  env.workspaceOk = true ∧ env.cloneOk = true ∧
    (needsCheckout env.branch = true → env.checkoutOk = true) ∧
    env.patchOk = true ∧ env.sandboxOk = true

instance (env : OrchestratorEnv) : Decidable (earlyOk env) := by
  unfold earlyOk; infer_instance

/-- Modelled from the spec: the success formula C6 states for the test
strategy, exit code 0 and (no criteria, or zero failures, or pass rate at
least the configured `test_pass_rate`, with 1.0 only when none is
configured). -/
def specTestSuccess (exit_code : Int) (crit : Option SuccessCriteria)
    (tests_run tests_passed tests_failed : Int) : Bool :=
  exit_code == 0 &&
    (match crit with
     | Option.none => true
     | some c =>
        tests_failed == 0 ||
          decide ((tests_passed : ℚ) / ((max tests_run 1 : Int) : ℚ)
            ≥ (match c.test_pass_rate with
               | some r => r
               | Option.none => 1)))

/-! ## Claims -/

/-- C2: for every language and every exit code of the build command,
`check_build` reports passed = true, and a validation attempt whose syntax
check passed succeeds whatever the build exit code — a non-zero build exit
code never by itself fails an attempt. -/
theorem c2_build_check_nonfatal (language : String) (exit_code : Int)
    (output : String) (env : SandboxCheckEnv) :
    (checkBuild language exit_code output).passed = true ∧
    (env.syntaxExc = Option.none → env.buildExc = Option.none →
      (checkSyntax language env.syntaxExit env.syntaxOut).passed = true →
      (validate_in_sandbox language env).success = true) := by
  refine ⟨rfl, ?_⟩
  intro h1 h2 h3
  unfold validate_in_sandbox
  rw [h1, h2]
  simp [h3, checkBuild]

/-- Witness for C2: a python run whose syntax command exits 0 and whose
build command exits 7 still validates successfully. -/
theorem c2_build_check_nonfatal_witness :
    (checkBuild "python" 7 "broken build").passed = true ∧
    (validate_in_sandbox "python"
      { syntaxExit := 0, buildExit := 7 }).success = true := by
  have h := c2_build_check_nonfatal "python" 7 "broken build"
    { syntaxExit := 0, buildExit := 7 }
  exact ⟨h.1, h.2 rfl rfl (by decide)⟩

/-- C5: `apply_patch` removes the temporary patch file on every exit path;
when the dry-run check fails it raises without invoking the real apply and
leaves the working tree unchanged; and the real apply is only ever invoked
after a successful dry run. -/
theorem c5_apply_patch_two_phase {T : Type} (checkRun : T → String → Bool)
    (applyRun : T → String → Option T) (repo : RepoState T) (patch : String) :
    (apply_patch checkRun applyRun repo patch).2.1.tempPatchFile = Option.none ∧
    (checkRun repo.tree patch = false →
      (apply_patch checkRun applyRun repo patch).1 =
        Except.error "Patch does not apply" ∧
      (apply_patch checkRun applyRun repo patch).2.1.tree = repo.tree ∧
      (apply_patch checkRun applyRun repo patch).2.2 = false) ∧
    ((apply_patch checkRun applyRun repo patch).2.2 = true →
      checkRun repo.tree patch = true) := by
  unfold apply_patch
  by_cases h : checkRun repo.tree patch
  · rcases ha : applyRun repo.tree patch with _ | t <;> simp [h, ha]
  · simp [h]

/-- Witness for C5: a failing dry run at a concrete repository leaves the
tree unchanged with the temp file removed, and a run whose apply flag is
set had a passing dry run. -/
theorem c5_apply_patch_two_phase_witness :
    (apply_patch (fun (_ : Nat) (_ : String) => false) (fun _ _ => Option.none)
      { tree := 0, tempPatchFile := Option.none } "p").2.1.tree = 0 ∧
    (apply_patch (fun (_ : Nat) (_ : String) => false) (fun _ _ => Option.none)
      { tree := 0, tempPatchFile := Option.none } "p").2.1.tempPatchFile
        = Option.none ∧
    (fun (_ : Nat) (_ : String) => true) 0 "p" = true := by
  refine ⟨?_, ?_, ?_⟩
  · exact ((c5_apply_patch_two_phase _ _ _ _).2.1 rfl).2.1
  · exact (c5_apply_patch_two_phase (fun (_ : Nat) (_ : String) => false)
      (fun _ _ => Option.none) { tree := 0, tempPatchFile := Option.none } "p").1
  · exact (c5_apply_patch_two_phase (fun (_ : Nat) (_ : String) => true)
      (fun _ _ => some 1) { tree := 0, tempPatchFile := Option.none } "p").2.2 rfl

/-- C7: an enabled config whose strategy is none of script, service, test,
daemon makes `execute` return a failed result carrying the unknown-strategy
message, and more generally any exception escaping the strategy dispatch is
converted into a failed `ExecutionResult` carrying the message — it never
propagates out of the engine. -/
theorem c7_unknown_strategy_caught (env : EngineEnv) (config : ExecutionConfig)
    (h : config.enabled = true) :
    (config.strategy ≠ ExecutionStrategy.script →
     config.strategy ≠ ExecutionStrategy.service →
     config.strategy ≠ ExecutionStrategy.test →
     config.strategy ≠ ExecutionStrategy.daemon →
      executeEngine env config =
        { strategy := config.strategy, success := false,
          error := some ("Unknown strategy: " ++ strategyValue config.strategy) }) ∧
    (∀ e, executeE env config = Except.error e →
      (executeEngine env config).success = false ∧
      (executeEngine env config).error = some e) := by
  constructor
  · intro h1 h2 h3 h4
    have hs : config.strategy = ExecutionStrategy.none := by
      cases hc : config.strategy <;> simp_all
    simp [executeEngine, executeE, h, hs]
  · intro e he
    simp [executeEngine, h, he]

/-- Witness for C7: an enabled config at the default (none) strategy
yields a failed result with the unknown-strategy message. -/
theorem c7_unknown_strategy_caught_witness :
    executeEngine {} { enabled := true } =
      { strategy := ExecutionStrategy.none, success := false,
        error := some "Unknown strategy: none" } ∧
    (executeEngine {} { enabled := true }).success = false := by
  have h := c7_unknown_strategy_caught {} { enabled := true } rfl
  refine ⟨h.1 (by decide) (by decide) (by decide) (by decide), ?_⟩
  exact (h.2 "Unknown strategy: none" rfl).1

/-- The enabled script config of the spec round trip: command python,
args a.py, no success criteria. -/
def scriptRoundTripConfig : ExecutionConfig :=
  { enabled := true, strategy := ExecutionStrategy.script,
    command := some "python", args := some ["a.py"] }

/-- C8: with no success criteria the script strategy defaults to the
exit-code-0 criterion: exit 0 succeeds and exit 1 fails for every stdout,
stderr and runtime. -/
theorem c8_script_default_criterion (env : EngineEnv) (stdout stderr : String)
    (runtime : ℚ) :
    (executeEngine { env with scriptOutcome := Except.ok (0, stdout, stderr, runtime) }
      scriptRoundTripConfig).success = true ∧
    (executeEngine { env with scriptOutcome := Except.ok (1, stdout, stderr, runtime) }
      scriptRoundTripConfig).success = false := by
  exact ⟨rfl, rfl⟩

/-- C9: an all-absent `SuccessCriteria` object evaluates to success with an
empty per-criterion map — for every exit code, including non-zero ones —
whereas an absent criteria bundle evaluates to success exactly when the
exit code is 0. -/
theorem c9_empty_criteria_vacuous (exit_code : Int) (stdout stderr : String)
    (runtime : ℚ) :
    evaluate_criteria (some {}) exit_code stdout stderr runtime = (true, []) ∧
    evaluate_criteria Option.none exit_code stdout stderr runtime =
      ((exit_code == 0), [("exit_code_0", exit_code == 0)]) := by
  exact ⟨rfl, rfl⟩

/-- C10: the boolean stored in `stderr_empty` is never consulted — any
non-None value adds the stderr-must-be-empty criterion — so evaluation
with `stderr_empty = False` still fails whenever stderr is not blank. -/
theorem c10_stderr_empty_value_ignored (c : SuccessCriteria) (b₁ b₂ : Bool)
    (exit_code : Int) (stdout stderr : String) (runtime : ℚ) :
    (evaluate_criteria (some { c with stderr_empty := some b₁ })
        exit_code stdout stderr runtime =
     evaluate_criteria (some { c with stderr_empty := some b₂ })
        exit_code stdout stderr runtime) ∧
    (pyStrip stderr ≠ "" →
      (evaluate_criteria (some { stderr_empty := some false })
        exit_code stdout stderr runtime).1 = false) := by
  constructor
  · rfl
  · intro h
    have hne : stderr ≠ "" := by
      intro he
      apply h
      rw [he]
      rfl
    have h1 : (stderr == "") = false := by
      simp [hne]
    have h2 : (pyStrip stderr == "") = false := by
      simp [h]
    simp [evaluate_criteria, dictInsert, stderrIsEmpty, h1, h2]

/-- Witness for C10: with stderr_empty explicitly False and a non-blank
stderr, evaluation fails. -/
theorem c10_stderr_empty_value_ignored_witness :
    (evaluate_criteria (some { stderr_empty := some false }) 0 "" "boom" 0).1
      = false := by
  exact (c10_stderr_empty_value_ignored {} true false 0 "" "boom" 0).2
    (by decide)

/-- C6 counterexample: with a configured `test_pass_rate` of 0.0, exit
code 0 and counts (run 1, passed 0, failed 1), the code's success formula
(`test_pass_rate or 1.0` treats the falsy 0.0 as the default 1.0) gives
false while the formula stated by the claim (threshold = the configured
rate) gives true — so the claimed equality fails at this input. -/
theorem c6_pass_rate_counterexample :
    test_overall_success 0 (some { test_pass_rate := some 0 }) 1 0 1 = false ∧
    specTestSuccess 0 (some { test_pass_rate := some 0 }) 1 0 1 = true := by
  constructor
  · simp [test_overall_success]
    norm_num [passRateOr1]
  · simp [specTestSuccess]

/-- The pytest scenario config of the claim: test strategy with framework
pytest and success_if.test_pass_rate = 0.8. -/
def pytestScenarioConfig : ExecutionConfig :=
  { enabled := true, strategy := ExecutionStrategy.test,
    test_command := some "pytest", test_framework := some "pytest",
    success_if := some { test_pass_rate := some (4/5) } }

/-- C6 amended: pytest stdout 7 passed, 2 failed parses to
(run 9, passed 7, failed 2); overall success is exit code 0 AND (no
criteria, or zero failures, or pass rate at least the configured
test_pass_rate, where a missing or zero configured rate is replaced by
the default 1.0); and with test_pass_rate = 0.8 and counts (9, 7, 2) the
overall success is false for every exit code — as is the full engine
result on that stdout. -/
theorem c6_pytest_parse_and_pass_rate :
    parse_test_results "7 passed, 2 failed" (some "pytest") = (9, 7, 2) ∧
    (∀ (ec : Int) (c : SuccessCriteria) (tr tp tf : Int),
      test_overall_success ec (some c) tr tp tf =
        (ec == 0 && (tf == 0 ||
          decide ((tp : ℚ) / ((max tr 1 : Int) : ℚ) ≥ passRateOr1 c.test_pass_rate))) ∧
      test_overall_success ec Option.none tr tp tf = (ec == 0)) ∧
    (∀ ec : Int,
      test_overall_success ec (some { test_pass_rate := some (4/5) }) 9 7 2
        = false) ∧
    ((executeEngine { testOutcome := Except.ok (1, "7 passed, 2 failed", "", 0) }
        pytestScenarioConfig).tests_run = some 9 ∧
     (executeEngine { testOutcome := Except.ok (1, "7 passed, 2 failed", "", 0) }
        pytestScenarioConfig).tests_passed = some 7 ∧
     (executeEngine { testOutcome := Except.ok (1, "7 passed, 2 failed", "", 0) }
        pytestScenarioConfig).tests_failed = some 2 ∧
     (executeEngine { testOutcome := Except.ok (1, "7 passed, 2 failed", "", 0) }
        pytestScenarioConfig).success = false) := by
  refine ⟨rfl, ?_, ?_, rfl, rfl, rfl, rfl⟩
  · intro ec c tr tp tf
    constructor
    · rfl
    · simp [test_overall_success]
  · intro ec
    simp [test_overall_success]
    intro
    norm_num [passRateOr1]

/-! ## Orchestrator lemmas -/

/-- The attempt counter never exceeds the remaining iteration budget. -/
theorem validationLoop_attempts_le (staticOk fixerOk retryPatchOk : Nat → Bool)
    (staticErr : Nat → String) :
    ∀ (remaining attempt : Nat) (errs : List String),
      (validationLoop staticOk fixerOk retryPatchOk staticErr attempt remaining errs).attempts
        ≤ attempt + remaining := by
  intro remaining
  induction remaining with
  | zero =>
    intro a errs
    simp [validationLoop]
  | succ n ih =>
    intro a errs
    unfold validationLoop
    by_cases h1 : staticOk a
    · simp [h1]
    · simp only [h1, if_false, Bool.false_eq_true]
      by_cases h2 : n = 0
      · simp [h2]
      · simp only [h2, if_false]
        by_cases h3 : fixerOk a
        · simp only [h3, Bool.not_true, Bool.false_eq_true, if_false]
          by_cases h4 : retryPatchOk a
          · simp only [h4, Bool.not_true, Bool.false_eq_true, if_false]
            calc (validationLoop staticOk fixerOk retryPatchOk staticErr (a + 1) n
                    (errs ++ [staticErr a])).attempts
                ≤ (a + 1) + n := ih (a + 1) (errs ++ [staticErr a])
              _ = a + (n + 1) := by omega
          · simp [h4]
        · simp [h3]

/-- One loop iteration always runs when the budget is positive, so the
attempt counter is at least attempt + 1. -/
theorem validationLoop_attempts_ge (staticOk fixerOk retryPatchOk : Nat → Bool)
    (staticErr : Nat → String) :
    ∀ (remaining attempt : Nat) (errs : List String), 0 < remaining →
      attempt + 1 ≤
        (validationLoop staticOk fixerOk retryPatchOk staticErr attempt remaining errs).attempts := by
  intro remaining
  induction remaining with
  | zero =>
    intro a errs h
    omega
  | succ n ih =>
    intro a errs _
    unfold validationLoop
    by_cases h1 : staticOk a
    · simp [h1]
    · simp only [h1, if_false, Bool.false_eq_true]
      by_cases h2 : n = 0
      · simp [h2]
      · simp only [h2, if_false]
        by_cases h3 : fixerOk a
        · simp only [h3, Bool.not_true, Bool.false_eq_true, if_false]
          by_cases h4 : retryPatchOk a
          · simp only [h4, Bool.not_true, Bool.false_eq_true, if_false]
            have := ih (a + 1) (errs ++ [staticErr a]) (by omega)
            omega
          · simp [h4]
        · simp [h3]

/-- When the static check fails on every attempt and the fixer never
succeeds, the loop ends unsuccessful with nothing raised. -/
theorem validationLoop_all_fail (staticOk fixerOk retryPatchOk : Nat → Bool)
    (staticErr : Nat → String) (hst : ∀ i, staticOk i = false)
    (hfx : ∀ i, fixerOk i = false) :
    ∀ (remaining attempt : Nat) (errs : List String),
      (validationLoop staticOk fixerOk retryPatchOk staticErr attempt remaining errs).success
        = false ∧
      (validationLoop staticOk fixerOk retryPatchOk staticErr attempt remaining errs).raised
        = Option.none := by
  intro remaining
  induction remaining with
  | zero =>
    intro a errs
    exact ⟨rfl, rfl⟩
  | succ n ih =>
    intro a errs
    unfold validationLoop
    simp only [hst a, hfx a, Bool.false_eq_true, if_false, Bool.not_false, if_true]
    by_cases h2 : n = 0
    · simp [h2]
    · simp [h2]

/-- A failed static check whose fixer request also fails ends the loop at
once: one more attempt, one more recorded error, nothing raised. -/
theorem validationLoop_fixer_stop (staticOk fixerOk retryPatchOk : Nat → Bool)
    (staticErr : Nat → String) (attempt n : Nat) (errs : List String)
    (hst : staticOk attempt = false) (hfx : fixerOk attempt = false) :
    validationLoop staticOk fixerOk retryPatchOk staticErr attempt (n + 1) errs =
      { success := false, attempts := attempt + 1,
        errors := errs ++ [staticErr attempt], raised := Option.none } := by
  unfold validationLoop
  simp only [hst, hfx, Bool.false_eq_true, if_false, Bool.not_false, if_true]
  by_cases h2 : n = 0
  · simp [h2]
  · simp [h2]

/-- `afterLoop` transfers the loop counters into the run record and leaves
workspace and sandbox untouched. -/
theorem afterLoop_fields (env : OrchestratorEnv) (s : RunState) (lr : LoopResult) :
    (afterLoop env s lr).attempts = lr.attempts ∧
    (afterLoop env s lr).errors = lr.errors ∧
    (afterLoop env s lr).workspace = s.workspace ∧
    (afterLoop env s lr).sandbox = s.sandbox ∧
    (afterLoop env s lr).status.isTerminal = true := by
  unfold afterLoop
  cases hr : lr.raised
  · cases hpe : postExecSuccess env lr
    · simp [hr, hpe, Status.isTerminal]
    · cases hc : env.commitRaises
      · cases hp : env.pushRaises
        · simp [hr, hpe, hc, hp, Status.isTerminal]
        · simp [hr, hpe, hc, hp, Status.isTerminal]
      · simp [hr, hpe, hc, Status.isTerminal]
  · simp [hr, Status.isTerminal]

/-- An unsuccessful loop with nothing raised makes the run fail. -/
theorem afterLoop_failed (env : OrchestratorEnv) (s : RunState) (lr : LoopResult)
    (hr : lr.raised = Option.none) (hs : lr.success = false) :
    (afterLoop env s lr).status = Status.failed := by
  simp [afterLoop, postExecSuccess, hr, hs]

/-- When the five early phases succeed, the try block is the attempt loop
followed by the post-loop phases. -/
theorem runTry_early (m : Nat) (env : OrchestratorEnv) (hE : earlyOk env) :
    runTry m env = afterLoop env loopEntryState
      (validationLoop env.staticOk env.fixerOk env.retryPatchOk env.staticErr 0 m []) := by
  obtain ⟨h1, h2, h3, h4, h5⟩ := hE
  unfold runTry
  rcases hnc : needsCheckout env.branch
  · simp [h1, h2, h4, h5, hnc]
  · simp [h1, h2, h4, h5, hnc, h3 hnc]

/-- When one of the five early phases fails, the run ends in error with no
attempt performed and no sandbox recorded. -/
theorem runTry_not_early (m : Nat) (env : OrchestratorEnv) (h : ¬ earlyOk env) :
    (runTry m env).status = Status.error ∧ (runTry m env).attempts = 0 ∧
    (runTry m env).sandbox = Option.none := by
  unfold runTry
  rcases h1 : env.workspaceOk
  · simp [h1]
    exact ⟨rfl, rfl, rfl⟩
  · rcases h2 : env.cloneOk
    · simp [h1, h2]
      exact ⟨rfl, rfl, rfl⟩
    · rcases hco : needsCheckout env.branch && !env.checkoutOk
      · rcases h4 : env.patchOk
        · simp [h1, h2, hco, h4]
          exact ⟨rfl, rfl, rfl⟩
        · rcases h5 : env.sandboxOk
          · simp [h1, h2, hco, h4, h5]
            exact ⟨rfl, rfl, rfl⟩
          · exfalso
            apply h
            refine ⟨h1, h2, ?_, h4, h5⟩
            intro hn
            rw [hn] at hco
            simpa using hco
      · simp [h1, h2, hco]
        exact ⟨rfl, rfl, rfl⟩

/-- The finally block changes no field computed by the try block; it stamps
the completion time and performs both teardowns. -/
theorem runFinally_fields (s : RunState) :
    (runFinally s).status = s.status ∧ (runFinally s).attempts = s.attempts ∧
    (runFinally s).errors = s.errors ∧ (runFinally s).sandbox = s.sandbox ∧
    (runFinally s).completedAtSet = true ∧
    (runFinally s).sandboxCleaned = s.sandbox.isSome ∧
    (runFinally s).workspaceCleaned = s.workspace.isSome := by
  exact ⟨rfl, rfl, rfl, rfl, rfl, rfl, rfl⟩

/-- A run that recorded a sandbox recorded a workspace first. -/
theorem runTry_sandbox_imp_workspace (m : Nat) (env : OrchestratorEnv) :
    (runTry m env).sandbox.isSome = true →
      (runTry m env).workspace.isSome = true := by
  by_cases hE : earlyOk env
  · rw [runTry_early m env hE]
    intro _
    rw [(afterLoop_fields env loopEntryState _).2.2.1]
    rfl
  · intro hs
    rw [(runTry_not_early m env hE).2.2] at hs
    simp at hs

/-- C1 (amended): every run ends in a terminal status with attempts at
most the configured maximum; attempts is at least 1 when the five early
phases succeeded and the maximum is positive; a run that terminates early
because workspace, clone, checkout, patch apply or sandbox creation
failed ends with attempts = 0. -/
theorem c1_attempts_bounds (m : Nat) (env : OrchestratorEnv) :
    (execute_validation m env).status.isTerminal = true ∧
    (execute_validation m env).attempts ≤ m ∧
    (earlyOk env → 0 < m → 1 ≤ (execute_validation m env).attempts) ∧
    (¬ earlyOk env → (execute_validation m env).attempts = 0) := by
  have hst : (execute_validation m env).status = (runTry m env).status := rfl
  have hat : (execute_validation m env).attempts = (runTry m env).attempts := rfl
  refine ⟨?_, ?_, ?_, ?_⟩
  · rw [hst]
    by_cases hE : earlyOk env
    · rw [runTry_early m env hE]
      exact (afterLoop_fields env loopEntryState _).2.2.2.2
    · rw [(runTry_not_early m env hE).1]
      rfl
  · rw [hat]
    by_cases hE : earlyOk env
    · rw [runTry_early m env hE, (afterLoop_fields env loopEntryState _).1]
      have h := validationLoop_attempts_le env.staticOk env.fixerOk
        env.retryPatchOk env.staticErr m 0 []
      omega
    · rw [(runTry_not_early m env hE).2.1]
      omega
  · intro hE hm
    rw [hat, runTry_early m env hE, (afterLoop_fields env loopEntryState _).1]
    exact validationLoop_attempts_ge env.staticOk env.fixerOk env.retryPatchOk
      env.staticErr m 0 [] hm
  · intro hE
    rw [hat, (runTry_not_early m env hE).2.1]

/-- A run whose clone fails. -/
def cloneFailEnv : OrchestratorEnv := { cloneOk := false }

/-- C1 counterexample: a run that terminates early because the clone
failed reaches the terminal status error with attempts = 0, refuting the
claimed lower bound of 1 for such runs. -/
theorem c1_clone_failure_attempts_zero :
    (execute_validation 3 cloneFailEnv).status = Status.error ∧
    (execute_validation 3 cloneFailEnv).status.isTerminal = true ∧
    (execute_validation 3 cloneFailEnv).attempts = 0 := by
  exact ⟨rfl, rfl, rfl⟩

/-- Witness for C1: a default run performs at least one attempt; the
clone-failure run performs zero. -/
theorem c1_attempts_bounds_witness :
    1 ≤ (execute_validation 3 ({} : OrchestratorEnv)).attempts ∧
    (execute_validation 3 cloneFailEnv).attempts = 0 := by
  constructor
  · exact (c1_attempts_bounds 3 {}).2.2.1 (by decide) (by decide)
  · exact (c1_attempts_bounds 3 cloneFailEnv).2.2.2 (by decide)

/-- C3: the completion timestamp is always stamped; whenever a sandbox was
recorded both the sandbox and the workspace are torn down, whatever
happened afterwards (corrected-patch, commit or push exceptions included,
since the environment is arbitrary); and the run record — its terminal
status in particular — does not depend on whether either teardown itself
fails. -/
theorem c3_unconditional_cleanup (m : Nat) (env : OrchestratorEnv) :
    (execute_validation m env).completedAtSet = true ∧
    ((execute_validation m env).sandbox.isSome = true →
      (execute_validation m env).sandboxCleaned = true ∧
      (execute_validation m env).workspaceCleaned = true) ∧
    (∀ b₁ b₂ : Bool,
      execute_validation m
        { env with sandboxCleanupOk := b₁, workspaceCleanupOk := b₂ } =
        execute_validation m env) := by
  refine ⟨rfl, ?_, ?_⟩
  · intro hs
    have h1 : (execute_validation m env).sandboxCleaned
        = (runTry m env).sandbox.isSome := rfl
    have h2 : (execute_validation m env).workspaceCleaned
        = (runTry m env).workspace.isSome := rfl
    have h3 : (execute_validation m env).sandbox = (runTry m env).sandbox := rfl
    rw [h3] at hs
    constructor
    · rw [h1]
      exact hs
    · rw [h2]
      exact runTry_sandbox_imp_workspace m env hs
  · intro b₁ b₂
    rfl

/-- Witness for C3: a run with commit raising after sandbox creation still
tears down sandbox and workspace. -/
theorem c3_unconditional_cleanup_witness :
    (execute_validation 3 ({ commitRaises := true } : OrchestratorEnv)).sandboxCleaned
      = true ∧
    (execute_validation 3 ({ commitRaises := true } : OrchestratorEnv)).workspaceCleaned
      = true := by
  exact (c3_unconditional_cleanup 3 { commitRaises := true }).2.1 (by decide)

/-- C4: under successful early phases, (i) a run whose static checks fail
on every attempt and whose fixer never succeeds ends failed, never
completed; (ii) with the default maximum of 3 attempts, three consecutive
static failures with a fixer that succeeds whenever asked give exactly 3
attempts, 3 recorded errors and a failed run; (iii) a fixer failure ends
the retry loop at once: the run stops after that very attempt. -/
theorem c4_retry_loop_termination (env : OrchestratorEnv) (hE : earlyOk env) :
    (∀ m, (∀ i, env.staticOk i = false) → (∀ i, env.fixerOk i = false) →
      (execute_validation m env).status = Status.failed) ∧
    ((∀ i, env.staticOk i = false) →
      env.fixerOk 0 = true → env.fixerOk 1 = true →
      env.retryPatchOk 0 = true → env.retryPatchOk 1 = true →
      (execute_validation 3 env).status = Status.failed ∧
      (execute_validation 3 env).attempts = 3 ∧
      (execute_validation 3 env).errors.length = 3) ∧
    (∀ m, 0 < m → env.staticOk 0 = false → env.fixerOk 0 = false →
      (execute_validation m env).attempts = 1 ∧
      (execute_validation m env).status = Status.failed) := by
  refine ⟨?_, ?_, ?_⟩
  · intro m hst hfx
    have hl := validationLoop_all_fail env.staticOk env.fixerOk env.retryPatchOk
      env.staticErr hst hfx m 0 []
    have hq : (execute_validation m env).status = (runTry m env).status := rfl
    rw [hq, runTry_early m env hE]
    exact afterLoop_failed env loopEntryState _ hl.2 hl.1
  · intro hst hf0 hf1 hr0 hr1
    have hl : validationLoop env.staticOk env.fixerOk env.retryPatchOk
        env.staticErr 0 3 []
        = { success := false, attempts := 3,
            errors := [env.staticErr 0, env.staticErr 1, env.staticErr 2],
            raised := Option.none } := by
      simp [validationLoop, hst 0, hst 1, hst 2, hf0, hf1, hr0, hr1]
    have hq : (execute_validation 3 env).status = (runTry 3 env).status := rfl
    have ha : (execute_validation 3 env).attempts = (runTry 3 env).attempts := rfl
    have he : (execute_validation 3 env).errors = (runTry 3 env).errors := rfl
    refine ⟨?_, ?_, ?_⟩
    · rw [hq, runTry_early 3 env hE]
      exact afterLoop_failed env loopEntryState _ (by rw [hl]) (by rw [hl])
    · rw [ha, runTry_early 3 env hE, (afterLoop_fields env loopEntryState _).1, hl]
    · rw [he, runTry_early 3 env hE, (afterLoop_fields env loopEntryState _).2.1, hl]
      rfl
  · intro m hm hst0 hfx0
    obtain ⟨n, rfl⟩ : ∃ n, m = n + 1 := ⟨m - 1, by omega⟩
    have hl := validationLoop_fixer_stop env.staticOk env.fixerOk env.retryPatchOk
      env.staticErr 0 n [] hst0 hfx0
    have hq : (execute_validation (n + 1) env).status = (runTry (n + 1) env).status := rfl
    have ha : (execute_validation (n + 1) env).attempts
        = (runTry (n + 1) env).attempts := rfl
    constructor
    · rw [ha, runTry_early (n + 1) env hE, (afterLoop_fields env loopEntryState _).1, hl]
    · rw [hq, runTry_early (n + 1) env hE]
      exact afterLoop_failed env loopEntryState _ (by rw [hl]) (by rw [hl])

/-- A run whose static checks always fail and whose fixer always fails. -/
def allFailEnv : OrchestratorEnv :=
  { staticOk := fun _ => false, fixerOk := fun _ => false }

/-- A run whose static checks always fail while the fixer always succeeds. -/
def staticFailEnv : OrchestratorEnv :=
  { staticOk := fun _ => false }

/-- Witness for C4: the always-failing run stops failed after one attempt
(the fixer refused at once); the fixer-assisted run does exactly 3
attempts, 3 errors, and fails. -/
theorem c4_retry_loop_termination_witness :
    (execute_validation 3 allFailEnv).status = Status.failed ∧
    (execute_validation 3 allFailEnv).attempts = 1 ∧
    (execute_validation 3 staticFailEnv).status = Status.failed ∧
    (execute_validation 3 staticFailEnv).attempts = 3 ∧
    (execute_validation 3 staticFailEnv).errors.length = 3 := by
  have hA := c4_retry_loop_termination allFailEnv (by decide)
  have hB := c4_retry_loop_termination staticFailEnv (by decide)
  have hA1 := hA.1 3 (fun i => rfl) (fun i => rfl)
  have hA3 := hA.2.2 3 (by decide) rfl rfl
  have hB2 := hB.2.1 (fun i => rfl) rfl rfl rfl rfl
  exact ⟨hA1, hA3.1, hB2.1, hB2.2.1, hB2.2.2⟩
